import Mathlib

/-!
# RconGs: a shallow embedding of `src/rcon_gs.js`

The session object of `rcon_gs.js` is modelled by explicit state passing.
Every method takes the session and returns the new session together with the
ordered list of observable effects it performed (socket calls, listener
registrations, emitted events, callback invocations).

Conventions of the embedding:

* a `Buffer` is the list of its bytes, each a natural number below 256;
* a JavaScript string is a Lean `String` (a sequence of Unicode scalar values,
  so strings with lone surrogates are not represented);
* caller-supplied functions (`callback`) are opaque: they are named by a
  number and an invocation is recorded as `Effect.call`; what a callback or an
  external event listener does in turn is not part of the session;
* `dgram.createSocket` yields a socket named by a number, supplied by the
  environment as the argument `fresh` of `connect`;
* `new Date()` is supplied by the environment as the argument `now`;
* `emit` is recorded as an effect; of the listeners it runs, only those the
  session registers on itself (the one-shot "auth" listeners of `connect`) are
  part of the embedding. That Node.js throws from `emit("error", e)` when no
  "error" listener is registered is not represented.
-/

namespace RconGs

set_option linter.unusedVariables false

/-! ## Buffers and strings (the Node.js primitives the source calls) -/

/-- A Node.js `Buffer`: its bytes in order. -/
abbrev Buffer := List Nat

/-- UTF-8 encoding of one Unicode scalar value. -/
def utf8EncodeChar (c : Char) : List Nat :=
  let n := c.toNat
  if n < 0x80 then [n]
  else if n < 0x800 then [0xC0 + n / 64, 0x80 + n % 64]
  else if n < 0x10000 then [0xE0 + n / 4096, 0x80 + n / 64 % 64, 0x80 + n % 64]
  else [0xF0 + n / 262144, 0x80 + n / 4096 % 64, 0x80 + n / 64 % 64, 0x80 + n % 64]

/-- The call `Buffer.from(string)`: with no encoding argument Node.js encodes
the string as UTF-8. -/
def Buffer.from (s : String) : Buffer :=
  s.data.flatMap utf8EncodeChar

/-- State of the UTF-8 decoder inside a multi-byte sequence. -/
structure Utf8Pending where
  needed : Nat
  seen : Nat
  cp : Nat
  lower : Nat
  upper : Nat
  deriving DecidableEq, Repr

/-- The replacement character U+FFFD written for an ill-formed sequence. -/
def replacementChar : Char := Char.ofNat 0xFFFD

/-- First byte of a sequence: either a finished character or a pending
multi-byte sequence. -/
def utf8Lead (b : Nat) : Char ⊕ Utf8Pending :=
  if b < 0x80 then .inl (Char.ofNat b)
  else if 0xC2 ≤ b ∧ b ≤ 0xDF then .inr ⟨1, 0, b % 32, 0x80, 0xBF⟩
  else if 0xE0 ≤ b ∧ b ≤ 0xEF then
    .inr ⟨2, 0, b % 16, if b = 0xE0 then 0xA0 else 0x80, if b = 0xED then 0x9F else 0xBF⟩
  else if 0xF0 ≤ b ∧ b ≤ 0xF4 then
    .inr ⟨3, 0, b % 8, if b = 0xF0 then 0x90 else 0x80, if b = 0xF4 then 0x8F else 0xBF⟩
  else .inl replacementChar

/-- UTF-8 decoding with replacement of ill-formed sequences (the decoder of the
Encoding Standard, which `buf.toString()` follows). -/
def utf8DecodeFrom : Option Utf8Pending → List Nat → List Char
  | none, [] => []
  | some _, [] => [replacementChar]
  | none, b :: bs =>
    match utf8Lead b with
    | .inl c => c :: utf8DecodeFrom none bs
    | .inr p => utf8DecodeFrom (some p) bs
  | some p, b :: bs =>
    if p.lower ≤ b ∧ b ≤ p.upper then
      let cp := p.cp * 64 + b % 64
      if p.seen + 1 = p.needed then Char.ofNat cp :: utf8DecodeFrom none bs
      else utf8DecodeFrom (some ⟨p.needed, p.seen + 1, cp, 0x80, 0xBF⟩) bs
    else
      replacementChar ::
        (match utf8Lead b with
         | .inl c => c :: utf8DecodeFrom none bs
         | .inr q => utf8DecodeFrom (some q) bs)

/-- The call `buf.toString()`: the bytes decoded as UTF-8. -/
def Buffer.toString (b : Buffer) : String :=
  ⟨utf8DecodeFrom none b⟩

/-- The call `buf.slice(start)`. -/
def Buffer.slice (b : Buffer) (start : Nat) : Buffer :=
  b.drop start

/-- The call `buf.readInt32LE(offset)`: the four bytes at `offset` as a signed
little-endian 32-bit integer; `none` when fewer than four bytes are there
(Node.js throws a RangeError). -/
def Buffer.readInt32LE (b : Buffer) (offset : Nat) : Option Int :=
  match b.drop offset with
  | b0 :: b1 :: b2 :: b3 :: _ =>
    let u := (b0 % 256) + (b1 % 256) * 256 + (b2 % 256) * 65536 + (b3 % 256) * 16777216
    some (if u < 2147483648 then (u : Int) else (u : Int) - 4294967296)
  | _ => none

/-- Length of a character in UTF-16 code units, the unit of JavaScript string
indices. -/
def utf16Width (c : Char) : Nat :=
  if c.toNat < 0x10000 then 1 else 2

/-- Search for `pat` in `s` from code-unit position `pos`. -/
def indexOfFrom (pat : List Char) : List Char → Nat → Int
  | [], pos => if pat.isPrefixOf [] then (pos : Int) else -1
  | c :: cs, pos =>
    if pat.isPrefixOf (c :: cs) then (pos : Int)
    else indexOfFrom pat cs (pos + utf16Width c)

/-- The call `str.indexOf(pat)`: position of the first occurrence, or -1. -/
def indexOf (str pat : String) : Int :=
  indexOfFrom pat.data str.data 0

/-- Splitting on a separator character, with the current piece accumulated in
reverse in `cur`. -/
def splitFrom (sep : Char) : List Char → List Char → List String
  | [], cur => [⟨cur.reverse⟩]
  | c :: cs, cur =>
    if c = sep then ⟨cur.reverse⟩ :: splitFrom sep cs []
    else splitFrom sep cs (c :: cur)

/-- The call `str.split(" ")`. -/
def splitSpace (str : String) : List String :=
  splitFrom ' ' str.data []

/-- White space and line terminators of ECMAScript, the characters removed by
`trim`. -/
def isJsWhiteSpace (c : Char) : Bool :=
  let n := c.toNat
  n = 0x09 || n = 0x0A || n = 0x0B || n = 0x0C || n = 0x0D || n = 0x20 || n = 0xA0 ||
  n = 0x1680 || (0x2000 ≤ n && n ≤ 0x200A) || n = 0x2028 || n = 0x2029 || n = 0x202F ||
  n = 0x205F || n = 0x3000 || n = 0xFEFF

/-- The call `str.trim()`. -/
def trim (str : String) : String :=
  ⟨((str.data.dropWhile isJsWhiteSpace).reverse.dropWhile isJsWhiteSpace).reverse⟩

/-- Truthiness of a value that is a string, `null` or `undefined`: only a
non-empty string is truthy. -/
def truthy : Option String → Bool
  | none => false
  | some s => s ≠ ""

/-! ## The session object and its observable effects -/

/-- A JavaScript `Error` object. -/
structure JsError where
  message : String
  deriving DecidableEq, Repr

/-- The record built for a command reply (lines 72-80). -/
structure Response where
  size : Nat
  id : Nat
  type : Nat
  body : String
  user : Option Nat
  timestamp : Nat
  log : Bool
  deriving DecidableEq, Repr

/-- Values passed to callbacks and event listeners. -/
inductive Value where
  | null
  | bool (b : Bool)
  | str (s : String)
  | error (e : JsError)
  | response (r : Response)
  deriving DecidableEq, Repr

/-- The function expressions of the source, each with the `callback` it
closes over (`none` when `connect`/`send` was called without one). -/
inductive Handler where
  /-- Lines 36-39: listener for the socket event "error". -/
  | socketError (callback : Option Nat)
  /-- Lines 40-42: listener for the socket event "message". -/
  | socketMessage
  /-- Lines 44-50: completion function of the challenge-request send. -/
  | connectSent (callback : Option Nat)
  /-- Lines 51-54: one-shot listener for the session event "auth". -/
  | auth (callback : Option Nat)
  /-- Lines 107-109: completion function of a command send. -/
  | commandSent (callback : Option Nat)
  deriving DecidableEq, Repr

/-- What a method does to the world outside the session fields, in order. -/
inductive Effect where
  /-- The call `dgram.createSocket("udp4")`, which returned socket `sock`. -/
  | createSocket (sock : Nat)
  /-- The call `sock.on(event, handler)`. -/
  | socketOn (sock : Nat) (event : String) (handler : Handler)
  /-- The call `sock.send(buf, offset, length, port, host, done)`. -/
  | socketSend (sock : Nat) (buf : Buffer) (offset length port : Nat) (host : String)
      (done : Handler)
  /-- The call `sock.close()`. -/
  | socketClose (sock : Nat)
  /-- The call `this.once(event, handler)`. -/
  | once (event : String) (handler : Handler)
  /-- The call `this.emit(event, ...args)`. -/
  | emit (event : String) (args : List Value)
  /-- An invocation `callback(...args)` of a caller-supplied function. -/
  | call (callback : Nat) (args : List Value)
  /-- An exception leaving the method. -/
  | throw (name : String)
  deriving DecidableEq, Repr

/-- The part of the `server` collaborator that is read: `server.serverData`. -/
structure ServerData where
  rcon_password : String
  deriving DecidableEq, Repr

/-- The `server` collaborator. -/
structure RconServer where
  serverData : ServerData
  deriving DecidableEq, Repr

/-- The session object. `socket`, `challenge` and `pending` are the fields of
lines 20-22 (`none` is `null`); `authOnce` is the part of the inherited
EventEmitter state the source uses: the callbacks closed over by the one-shot
"auth" listeners registered so far and not yet fired, oldest first. -/
structure RconGoldSource where
  host : String
  port : Nat
  server : RconServer
  socket : Option Nat
  challenge : Option String
  pending : List Nat
  authOnce : List (Option Nat)
  deriving DecidableEq, Repr

/-- A method call's return value, the session afterwards and the effects
performed. -/
structure Outcome (α : Type) where
  ret : α
  self : RconGoldSource
  effects : List Effect

/-- The constructor (lines 13-23). -/
def RconGoldSource.new (host : String) (port : Nat) (server : RconServer) : RconGoldSource :=
  { host := host, port := port, server := server,
    socket := none, challenge := none, pending := [], authOnce := [] }

/-- Body of the one-shot "auth" listener (lines 51-54) closing over
`callback`; it ignores the arguments of the event. -/
def authListener (callback : Option Nat) : List Effect :=
  (match callback with
   | some cb => [Effect.call cb [Value.null]]
   | none => []) ++ [Effect.emit "connect" []]

/-- The call `this.emit(event, ...args)`. The only listeners the session registers on
itself are the one-shot "auth" listeners: an "auth" event runs them in
registration order and unregisters them. -/
def RconGoldSource.emit (self : RconGoldSource) (event : String) (args : List Value) :
    RconGoldSource × List Effect :=
  if event = "auth" then
    ({ self with authOnce := [] },
      Effect.emit event args :: self.authOnce.flatMap authListener)
  else (self, [Effect.emit event args])

/-- Lines 119-125. -/
def RconGoldSource.disconnect (self : RconGoldSource) : Outcome Bool :=
  match self.socket with
  | none => ⟨false, self, []⟩
  | some sock =>
    let r := RconGoldSource.emit { self with socket := none } "disconnect" []
    ⟨true, r.1, Effect.socketClose sock :: r.2⟩

/-- Lines 32-56. `fresh` is the socket `dgram.createSocket` returns when it
is called. -/
def RconGoldSource.connect (self : RconGoldSource) (fresh : Nat) (callback : Option Nat) :
    Outcome Bool :=
  match self.socket with
  | some _ => ⟨false, self, []⟩
  | none =>
    let buf := Buffer.from "\xff\xff\xff\xffchallenge rcon\n"
    ⟨true, { self with socket := some fresh, authOnce := self.authOnce ++ [callback] },
      [Effect.createSocket fresh,
       Effect.socketOn fresh "error" (Handler.socketError callback),
       Effect.socketOn fresh "message" Handler.socketMessage,
       Effect.socketSend fresh buf 0 buf.length self.port self.host
         (Handler.connectSent callback),
       Effect.once "auth" (Handler.auth callback)]⟩

/-- Lines 63-87. `now` is the value of `new Date()`. -/
def RconGoldSource._onMessage (self : RconGoldSource) (now : Nat) (msg : Buffer) :
    Outcome Unit :=
  if msg.length < 5 then ⟨(), self, []⟩
  else
    match Buffer.readInt32LE msg 0 with
    | none => ⟨(), self, [Effect.throw "RangeError"]⟩
    | some v =>
      if v ≠ -1 then ⟨(), self, []⟩
      else
        let str := Buffer.toString (Buffer.slice msg 4)
        if indexOf str "challenge rcon" = 0 then
          let parts := splitSpace str
          let challenge := if truthy parts[2]? then parts[2]?.map trim else none
          let r := RconGoldSource.emit { self with challenge := challenge } "auth"
            [Value.bool (challenge != none)]
          ⟨(), r.1, r.2⟩
        else
          let response : Response :=
            { size := msg.length - 4, id := 0, type := 0, body := str, user := none,
              timestamp := now, log := true }
          match self.pending with
          | [] =>
            let r := RconGoldSource.emit self "message" [Value.response response]
            ⟨(), r.1, r.2⟩
          | cb :: rest =>
            let r := RconGoldSource.emit { self with pending := rest } "message"
              [Value.response response]
            ⟨(), r.1, Effect.call cb [Value.str str] :: r.2⟩

/-- The `cmd` argument of `send`: a string or a Buffer. -/
inductive Cmd where
  | str (s : String)
  | buf (b : Buffer)
  deriving DecidableEq, Repr

/-- Line 103: `if (!Buffer.isBuffer(cmd)) cmd = Buffer.from(cmd)`. -/
def Cmd.toBuffer : Cmd → Buffer
  | Cmd.str s => Buffer.from s
  | Cmd.buf b => b

/-- The failure path of `send` (lines 98-101). -/
def notConnected (self : RconGoldSource) (callback : Option Nat) : Outcome Unit :=
  let err : JsError := ⟨"Not connected"⟩
  let r := RconGoldSource.emit self "error" [Value.error err]
  ⟨(), r.1,
    (match callback with
     | some cb => [Effect.call cb [Value.error err]]
     | none => []) ++ r.2⟩

/-- Lines 96-113. -/
def RconGoldSource.send (self : RconGoldSource) (cmd : Cmd) (user : Option Nat) (log : Bool)
    (callback : Option Nat) : Outcome Unit :=
  match self.socket with
  | none => notConnected self callback
  | some sock =>
    if !truthy self.challenge then notConnected self callback
    else
      let cmd := Cmd.toBuffer cmd
      let message := Buffer.from
        ("\xff\xff\xff\xffrcon " ++ self.challenge.getD "null" ++ " \"" ++
          self.server.serverData.rcon_password ++ "\" " ++ Buffer.toString cmd ++ "\n")
      ⟨(), { self with pending := match callback with
                                   | some cb => self.pending ++ [cb]
                                   | none => self.pending },
        [Effect.socketSend sock message 0 message.length self.port self.host
          (Handler.commandSent callback)]⟩

/-- The socket "error" listener (lines 36-39), run when the socket reports
`err`. -/
def onSocketError (self : RconGoldSource) (callback : Option Nat) (err : JsError) :
    Outcome Unit :=
  let r := RconGoldSource.disconnect self
  ⟨(), r.self,
    (match callback with
     | some cb => [Effect.call cb [Value.error err]]
     | none => []) ++ r.effects⟩

/-- The completion function of the challenge-request send (lines 44-50), run
with the transport error or `none`. -/
def onConnectSent (self : RconGoldSource) (callback : Option Nat) (err : Option JsError) :
    Outcome Unit :=
  match err with
  | none => ⟨(), self, []⟩
  | some e =>
    let r := RconGoldSource.disconnect self
    ⟨(), r.self,
      (match callback with
       | some cb => [Effect.call cb [Value.error e]]
       | none => []) ++ r.effects⟩

/-- The completion function of a command send (lines 107-109). -/
def onCommandSent (self : RconGoldSource) (callback : Option Nat) (err : Option JsError) :
    Outcome Unit :=
  match err, callback with
  | some e, some cb => ⟨(), self, [Effect.call cb [Value.error e]]⟩
  | _, _ => ⟨(), self, []⟩

/-! ## Sequences of operations -/

/-- One thing that happens to a session: a method call by the owner, or the
transport running one of the registered handlers. -/
inductive Op where
  | connect (fresh : Nat) (callback : Option Nat)
  | disconnect
  | send (cmd : Cmd) (user : Option Nat) (log : Bool) (callback : Option Nat)
  | message (now : Nat) (msg : Buffer)
  | socketError (callback : Option Nat) (err : JsError)
  | connectSent (callback : Option Nat) (err : Option JsError)
  | commandSent (callback : Option Nat) (err : Option JsError)
  deriving DecidableEq, Repr

/-- The session after one operation and the effects of that operation. -/
def step (self : RconGoldSource) : Op → RconGoldSource × List Effect
  | Op.connect fresh callback =>
    let r := RconGoldSource.connect self fresh callback
    (r.self, r.effects)
  | Op.disconnect =>
    let r := RconGoldSource.disconnect self
    (r.self, r.effects)
  | Op.send cmd user log callback =>
    let r := RconGoldSource.send self cmd user log callback
    (r.self, r.effects)
  | Op.message now msg =>
    let r := RconGoldSource._onMessage self now msg
    (r.self, r.effects)
  | Op.socketError callback err =>
    let r := onSocketError self callback err
    (r.self, r.effects)
  | Op.connectSent callback err =>
    let r := onConnectSent self callback err
    (r.self, r.effects)
  | Op.commandSent callback err =>
    let r := onCommandSent self callback err
    (r.self, r.effects)

/-- The session after a sequence of operations and all effects in order. -/
def run (self : RconGoldSource) : List Op → RconGoldSource × List Effect
  | [] => (self, [])
  | op :: ops =>
    let r := step self op
    let rs := run r.1 ops
    (rs.1, r.2 ++ rs.2)

/-- The callback invocations among a list of effects, in order. -/
def calls (effects : List Effect) : List Effect :=
  effects.filter fun e =>
    match e with
    | Effect.call _ _ => true
    | _ => false

/-- The datagrams handed to the transport among a list of effects, in order. -/
def datagrams (effects : List Effect) : List Effect :=
  effects.filter fun e =>
    match e with
    | Effect.socketSend _ _ _ _ _ _ _ => true
    | _ => false

/-- The events emitted among a list of effects, in order. -/
def emits (effects : List Effect) : List Effect :=
  effects.filter fun e =>
    match e with
    | Effect.emit _ _ => true
    | _ => false

/-- The out-of-band marker: the four bytes 0xFF. -/
def oobMarker : Buffer := [0xFF, 0xFF, 0xFF, 0xFF]

/-- A session as it is after `connect` on a fresh object with socket 1 and
completion callback 7. -/
def connecting : RconGoldSource :=
  { host := "10.0.0.1", port := 27015, server := ⟨⟨"pw"⟩⟩,
    socket := some 1, challenge := none, pending := [], authOnce := [some 7] }

/-- A session with an open socket and the challenge "12345". -/
def authenticated : RconGoldSource :=
  { host := "10.0.0.1", port := 27015, server := ⟨⟨"pw"⟩⟩,
    socket := some 1, challenge := some "12345", pending := [], authOnce := [] }

/-! ## Data used to state the properties -/

/-- The arguments of one `send` call that supplies a reply callback. -/
structure SendCall where
  cmd : Cmd
  user : Option Nat
  log : Bool
  callback : Nat
  deriving DecidableEq, Repr

/-- The `send` calls as operations. -/
def sendOps (sends : List SendCall) : List Op :=
  sends.map fun c => Op.send c.cmd c.user c.log (some c.callback)

/-- Inbound datagrams, each with its arrival time, as operations. -/
def replyOps (replies : List (Nat × Buffer)) : List Op :=
  replies.map fun r => Op.message r.1 r.2

/-- The text `_onMessage` decodes from a datagram (line 66). -/
def decodedText (msg : Buffer) : String :=
  Buffer.toString (Buffer.slice msg 4)

/-- A datagram that `_onMessage` handles as a command reply: at least 5 bytes,
valid marker, and text that does not begin with "challenge rcon". -/
def isCommandReply (msg : Buffer) : Bool :=
  decide (5 ≤ msg.length) && decide (Buffer.readInt32LE msg 0 = some (-1)) &&
    decide (indexOf (decodedText msg) "challenge rcon" ≠ 0)

/-- Two `send` calls with reply callbacks 11 and 12. -/
def exampleSends : List SendCall :=
  [⟨Cmd.str "status", none, true, 11⟩, ⟨Cmd.str "stats", none, true, 12⟩]

/-- Two command replies with texts "up" and "ok", arriving at times 5 and 6. -/
def exampleReplies : List (Nat × Buffer) :=
  [(5, oobMarker ++ Buffer.from "up"), (6, oobMarker ++ Buffer.from "ok")]

/-- The challenge value lines 68-69 compute from the decoded text. -/
def extractChallenge (str : String) : Option String :=
  if truthy (splitSpace str)[2]? then (splitSpace str)[2]?.map trim else none

/-- A datagram that `_onMessage` handles as a challenge reply: at least 5
bytes, valid marker, and text that begins with "challenge rcon". -/
def isChallengeReply (msg : Buffer) : Bool :=
  decide (5 ≤ msg.length) && decide (Buffer.readInt32LE msg 0 = some (-1)) &&
    decide (indexOf (decodedText msg) "challenge rcon" = 0)

/-- The datagram of the example: marker, then "challenge rcon 0 12345". -/
def exampleChallengeReply : Buffer :=
  oobMarker ++ Buffer.from "challenge rcon 0 12345"

/-- The bytes `Buffer.from` writes for the four characters "\xff\xff\xff\xff"
that open both string literals (lines 43 and 105). -/
def encodedMarker : Buffer := [0xC3, 0xBF, 0xC3, 0xBF, 0xC3, 0xBF, 0xC3, 0xBF]

/-- A freshly constructed session. -/
def freshSession : RconGoldSource :=
  RconGoldSource.new "10.0.0.1" 27015 ⟨⟨"pw"⟩⟩

/-- The events named `event` emitted among a list of effects, in order. -/
def emitsOf (event : String) (effects : List Effect) : List Effect :=
  effects.filter fun e =>
    match e with
    | Effect.emit ev _ => ev == event
    | _ => false

/-- A command reply with the text "up". -/
def exampleReply : Buffer :=
  oobMarker ++ Buffer.from "up"

/-- A transport error. -/
def exampleError : JsError := ⟨"EHOSTUNREACH"⟩

/-- A challenge reply carrying the token "12345". -/
def exampleChallenge : Buffer :=
  oobMarker ++ Buffer.from "challenge rcon 12345\n"

/-- A challenge reply whose third element is a lone newline. -/
def blankChallenge : Buffer :=
  oobMarker ++ Buffer.from "challenge rcon \n"

/-- The operations connect, challenge reply, disconnect, connect. -/
def reconnectOps (sock₁ sock₂ : Nat) (cb₁ cb₂ : Option Nat) (now : Nat) (msg : Buffer) :
    List Op :=
  [Op.connect sock₁ cb₁, Op.message now msg, Op.disconnect, Op.connect sock₂ cb₂]

/-- The challenge in the words of the specification: the element at index 2 of
the text split on single spaces, trimmed; absent when that element is missing
or empty. -/
def thirdTokenTrimmed (str : String) : Option String :=
  match (splitSpace str)[2]? with
  | none => none
  | some p => if p = "" then none else some (trim p)

/-- Whether an operation hands over `cb`: a call that passes it as its
callback, or the transport running a handler that closes over it. -/
def Op.carries (cb : Nat) : Op → Bool
  | Op.connect _ callback => callback == some cb
  | Op.send _ _ _ callback => callback == some cb
  | Op.socketError callback _ => callback == some cb
  | Op.connectSent callback _ => callback == some cb
  | Op.commandSent callback _ => callback == some cb
  | _ => false

/-- Whether an operation is the arrival of a command reply. -/
def Op.isReply : Op → Bool
  | Op.message _ msg => isCommandReply msg
  | _ => false

/-- The operations after the `disconnect` in the example: reconnect, handshake,
a new command with reply callback 12, and the reply to it. -/
def exampleLaterOps : List Op :=
  [Op.connect 2 none, Op.message 0 exampleChallenge,
    Op.send (Cmd.str "stats") none true (some 12), Op.message 9 exampleReply]

/-- The authenticated session with reply callback 11 waiting in the queue, as
`send` with that callback leaves it. -/
def queued : RconGoldSource :=
  { authenticated with pending := [11] }

/-- Operations that hand over no callback 11 and contain no command reply:
reconnect, handshake, and a new command with reply callback 12. -/
def exampleQuietOps : List Op :=
  [Op.connect 2 none, Op.message 0 exampleChallenge,
    Op.send (Cmd.str "stats") none true (some 12)]

/-! ## Inbound datagrams that are dropped -/

theorem readInt32LE_of_length (msg : Buffer) (h : ¬ msg.length < 5) :
    ∃ v, Buffer.readInt32LE msg 0 = some v := by
  match msg with
  | [] => simp at h
  | [_] => simp at h
  | [_, _] => simp at h
  | [_, _, _] => simp at h
  | b0 :: b1 :: b2 :: b3 :: rest => exact ⟨_, rfl⟩

/-- C1: a datagram shorter than 5 bytes, or whose first four bytes do not read
as the signed little-endian 32-bit integer -1, is dropped: the session is left
exactly as it was (socket, challenge, pending queue and registered listeners)
and nothing is done: no event is emitted and no callback is invoked. -/
theorem onMessage_drops_unrecognised (self : RconGoldSource) (now : Nat) (msg : Buffer)
    (h : msg.length < 5 ∨ Buffer.readInt32LE msg 0 ≠ some (-1)) :
    (self._onMessage now msg).self = self ∧ (self._onMessage now msg).effects = [] := by
  unfold RconGoldSource._onMessage
  by_cases hlen : msg.length < 5
  · simp [hlen]
  · obtain ⟨v, hv⟩ := readInt32LE_of_length msg hlen
    have hne : v ≠ -1 := by
      rcases h with h | h
      · exact absurd h hlen
      · intro hv1
        exact h (by rw [hv, hv1])
    simp [hlen, hv, hne]

theorem onMessage_drops_unrecognised_witness :
    (([0xFE, 0xFF, 0xFF, 0xFF, 0x41] : Buffer).length < 5 ∨
        Buffer.readInt32LE [0xFE, 0xFF, 0xFF, 0xFF, 0x41] 0 ≠ some (-1)) ∧
      (authenticated._onMessage 0 [0xFE, 0xFF, 0xFF, 0xFF, 0x41]).self = authenticated ∧
      (authenticated._onMessage 0 [0xFE, 0xFF, 0xFF, 0xFF, 0x41]).effects = [] :=
  ⟨Or.inr (by decide),
    onMessage_drops_unrecognised authenticated 0 [0xFE, 0xFF, 0xFF, 0xFF, 0x41]
      (Or.inr (by decide))⟩

/-! ## Encoding followed by decoding -/

theorem char_valid_toNat (c : Char) :
    c.toNat < 0xD800 ∨ (0xDFFF < c.toNat ∧ c.toNat < 0x110000) := by
  have h := c.valid
  simp only [UInt32.isValidChar, Nat.isValidChar] at h
  exact h

theorem utf8Decode_encodeChar (c : Char) (rest : List Nat) :
    utf8DecodeFrom none (utf8EncodeChar c ++ rest) = c :: utf8DecodeFrom none rest := by
  have hv := char_valid_toNat c
  have hc : Char.ofNat c.toNat = c := Char.ofNat_toNat c
  simp only [utf8EncodeChar]
  generalize c.toNat = n at hv hc
  by_cases h1 : n < 0x80
  · simp [h1, utf8DecodeFrom, utf8Lead, hc]
  · by_cases h2 : n < 0x800
    · have a1 : ¬ (0xC0 + n / 64 < 0x80) := by omega
      have a2 : 0xC2 ≤ 0xC0 + n / 64 ∧ 0xC0 + n / 64 ≤ 0xDF := by omega
      have a3 : 0x80 ≤ 0x80 + n % 64 ∧ 0x80 + n % 64 ≤ 0xBF := by omega
      have a4 : (0xC0 + n / 64) % 32 * 64 + (0x80 + n % 64) % 64 = n := by omega
      simp only [h1, h2, if_false, if_true, List.cons_append, List.nil_append, utf8DecodeFrom,
        utf8Lead, a1, a2, a3, a4, and_self, hc, zero_add]
    · by_cases h3 : n < 0x10000
      · have a1 : ¬ (0xE0 + n / 4096 < 0x80) := by omega
        have a2 : ¬ (0xC2 ≤ 0xE0 + n / 4096 ∧ 0xE0 + n / 4096 ≤ 0xDF) := by omega
        have a3 : 0xE0 ≤ 0xE0 + n / 4096 ∧ 0xE0 + n / 4096 ≤ 0xEF := by omega
        have a4 : (if 0xE0 + n / 4096 = 0xE0 then 0xA0 else 0x80) ≤ 0x80 + n / 64 % 64 ∧
            0x80 + n / 64 % 64 ≤ (if 0xE0 + n / 4096 = 0xED then 0x9F else 0xBF) := by
          split_ifs <;> omega
        have a5 : (0xE0 + n / 4096) % 16 * 64 + (0x80 + n / 64 % 64) % 64 = n / 64 := by omega
        have a6 : 0x80 ≤ 0x80 + n % 64 ∧ 0x80 + n % 64 ≤ 0xBF := by omega
        have a7 : n / 64 * 64 + (0x80 + n % 64) % 64 = n := by omega
        simp only [h1, h2, h3, if_false, if_true, List.cons_append, List.nil_append,
          utf8DecodeFrom, utf8Lead, a1, a2, a3, a4, a5, a6, a7, and_self, hc, zero_add,
          Nat.reduceAdd, Nat.reduceEqDiff, Nat.succ_ne_self]
      · have a1 : ¬ (0xF0 + n / 262144 < 0x80) := by omega
        have a2 : ¬ (0xC2 ≤ 0xF0 + n / 262144 ∧ 0xF0 + n / 262144 ≤ 0xDF) := by omega
        have a3 : ¬ (0xE0 ≤ 0xF0 + n / 262144 ∧ 0xF0 + n / 262144 ≤ 0xEF) := by omega
        have a3b : 0xF0 ≤ 0xF0 + n / 262144 ∧ 0xF0 + n / 262144 ≤ 0xF4 := by omega
        have a4 : (if 0xF0 + n / 262144 = 0xF0 then 0x90 else 0x80) ≤ 0x80 + n / 4096 % 64 ∧
            0x80 + n / 4096 % 64 ≤ (if 0xF0 + n / 262144 = 0xF4 then 0x8F else 0xBF) := by
          split_ifs <;> omega
        have a5 : (0xF0 + n / 262144) % 8 * 64 + (0x80 + n / 4096 % 64) % 64 = n / 4096 := by
          omega
        have a6 : 0x80 ≤ 0x80 + n / 64 % 64 ∧ 0x80 + n / 64 % 64 ≤ 0xBF := by omega
        have a7 : n / 4096 * 64 + (0x80 + n / 64 % 64) % 64 = n / 64 := by omega
        have a8 : 0x80 ≤ 0x80 + n % 64 ∧ 0x80 + n % 64 ≤ 0xBF := by omega
        have a9 : n / 64 * 64 + (0x80 + n % 64) % 64 = n := by omega
        simp only [h1, h2, h3, if_false, if_true, List.cons_append, List.nil_append,
          utf8DecodeFrom, utf8Lead, a1, a2, a3, a3b, a4, a5, a6, a7, a8, a9, and_self, hc,
          zero_add, Nat.reduceAdd, Nat.reduceEqDiff, Nat.succ_ne_self]

theorem utf8Decode_encode (cs rest : List Char) (tail : List Nat)
    (h : utf8DecodeFrom none tail = rest) :
    utf8DecodeFrom none (cs.flatMap utf8EncodeChar ++ tail) = cs ++ rest := by
  induction cs with
  | nil => simpa using h
  | cons c cs ih => simp [List.flatMap_cons, List.append_assoc, utf8Decode_encodeChar, ih]

theorem toString_from (s : String) : Buffer.toString (Buffer.from s) = s := by
  have := utf8Decode_encode s.data [] [] (by simp [utf8DecodeFrom])
  simp only [List.append_nil] at this
  simp [Buffer.toString, Buffer.from, this]

theorem from_append (a b : String) : Buffer.from (a ++ b) = Buffer.from a ++ Buffer.from b := by
  simp [Buffer.from, String.data_append]

/-! ## First-in first-out correlation of replies -/

theorem run_append (self : RconGoldSource) (ops₁ ops₂ : List Op) :
    run self (ops₁ ++ ops₂) =
      ((run (run self ops₁).1 ops₂).1, (run self ops₁).2 ++ (run (run self ops₁).1 ops₂).2) := by
  induction ops₁ generalizing self with
  | nil => simp [run]
  | cons op ops ih => simp [run, ih, List.append_assoc]

theorem calls_append (e₁ e₂ : List Effect) : calls (e₁ ++ e₂) = calls e₁ ++ calls e₂ := by
  simp [calls]

theorem emit_of_ne_auth (self : RconGoldSource) (event : String) (args : List Value)
    (h : event ≠ "auth") : self.emit event args = (self, [Effect.emit event args]) := by
  simp [RconGoldSource.emit, h]

theorem send_accepted (self : RconGoldSource) (sock : Nat) (cmd : Cmd) (user : Option Nat)
    (log : Bool) (callback : Option Nat) (hsock : self.socket = some sock)
    (hch : truthy self.challenge = true) :
    self.send cmd user log callback =
      ⟨(), { self with pending := match callback with
                                   | some cb => self.pending ++ [cb]
                                   | none => self.pending },
        [Effect.socketSend sock
          (Buffer.from ("\xff\xff\xff\xffrcon " ++ self.challenge.getD "null" ++ " \"" ++
            self.server.serverData.rcon_password ++ "\" " ++
            Buffer.toString (Cmd.toBuffer cmd) ++ "\n"))
          0
          (Buffer.from ("\xff\xff\xff\xffrcon " ++ self.challenge.getD "null" ++ " \"" ++
            self.server.serverData.rcon_password ++ "\" " ++
            Buffer.toString (Cmd.toBuffer cmd) ++ "\n")).length
          self.port self.host (Handler.commandSent callback)]⟩ := by
  simp [RconGoldSource.send, hsock, hch]

theorem onMessage_reply (self : RconGoldSource) (now : Nat) (msg : Buffer)
    (h : isCommandReply msg = true) :
    self._onMessage now msg =
      ⟨(), { self with pending := self.pending.tail },
        (match self.pending with
         | [] => []
         | cb :: _ => [Effect.call cb [Value.str (decodedText msg)]]) ++
        [Effect.emit "message" [Value.response
          { size := msg.length - 4, id := 0, type := 0, body := decodedText msg, user := none,
            timestamp := now, log := true }]]⟩ := by
  simp only [isCommandReply, Bool.and_eq_true, decide_eq_true_eq] at h
  obtain ⟨⟨hlen, hmark⟩, htext⟩ := h
  have hlen2 : ¬ msg.length < 5 := by omega
  unfold RconGoldSource._onMessage
  rw [if_neg hlen2, hmark]
  simp only [ne_eq, not_true_eq_false, if_false]
  have htext2 : ¬ indexOf (Buffer.toString (Buffer.slice msg 4)) "challenge rcon" = 0 := htext
  rw [if_neg htext2]
  cases hp : self.pending with
  | nil =>
    simp only [emit_of_ne_auth _ "message" _ (by decide), decodedText, List.tail_nil,
      List.nil_append]
    congr 1
    cases self
    simp_all
  | cons cb rest =>
    simp [emit_of_ne_auth _ "message" _ (by decide), decodedText]

theorem run_sends (sends : List SendCall) (self : RconGoldSource) (sock : Nat)
    (hsock : self.socket = some sock) (hch : truthy self.challenge = true) :
    (run self (sendOps sends)).1 =
        { self with pending := self.pending ++ sends.map SendCall.callback } ∧
      calls (run self (sendOps sends)).2 = [] := by
  induction sends generalizing self with
  | nil => simp [sendOps, run, calls]
  | cons c cs ih =>
    have hs := send_accepted self sock c.cmd c.user c.log (some c.callback) hsock hch
    have ih2 := ih { self with pending := self.pending ++ [c.callback] } hsock hch
    simp only [sendOps] at ih2
    simp only [sendOps, List.map_cons, run, step, hs, calls_append]
    refine ⟨?_, ?_⟩
    · rw [ih2.1]
      simp
    · rw [ih2.2]
      simp [calls]

theorem run_replies (replies : List (Nat × Buffer)) (self : RconGoldSource)
    (cbs rest : List Nat) (hpend : self.pending = cbs ++ rest)
    (hlen : cbs.length = replies.length)
    (hreply : ∀ r ∈ replies, isCommandReply r.2 = true) :
    (run self (replyOps replies)).1 = { self with pending := rest } ∧
      calls (run self (replyOps replies)).2 =
        List.zipWith (fun cb r => Effect.call cb [Value.str (decodedText r.2)]) cbs replies := by
  induction replies generalizing self cbs with
  | nil =>
    have : cbs = [] := List.length_eq_zero.mp (by simpa using hlen)
    subst this
    simp only [List.nil_append] at hpend
    simp [replyOps, run, calls, ← hpend]
  | cons r rs ih =>
    match cbs, hlen with
    | cb :: cbs, hlen =>
      have hm := onMessage_reply self r.1 r.2 (hreply r (List.mem_cons_self _ _))
      have ih2 := ih { self with pending := self.pending.tail } cbs (by simp [hpend])
        (by simpa using hlen) (fun x hx => hreply x (List.mem_cons_of_mem _ hx))
      simp only [replyOps] at ih2
      simp only [replyOps, List.map_cons, run, step, hm, calls_append]
      refine ⟨?_, ?_⟩
      · rw [ih2.1]
      · rw [ih2.2, hpend]
        simp [calls]

/-- C2: on a session with an open socket, a non-empty challenge and an empty
pending queue, n accepted `send` calls with reply callbacks cb1..cbn followed
by n command-reply datagrams invoke exactly cb1(t1), ..., cbn(tn), in that
order, where ti is the text decoded from the i-th datagram; no other callback
invocation happens and the pending queue is empty afterwards. -/
theorem fifo_correlation (self : RconGoldSource) (sock : Nat) (sends : List SendCall)
    (replies : List (Nat × Buffer))
    (hsock : self.socket = some sock) (hch : truthy self.challenge = true)
    (hpend : self.pending = []) (hlen : sends.length = replies.length)
    (hreply : ∀ r ∈ replies, isCommandReply r.2 = true) :
    calls (run self (sendOps sends ++ replyOps replies)).2 =
        List.zipWith (fun c r => Effect.call c.callback [Value.str (decodedText r.2)])
          sends replies ∧
      (run self (sendOps sends ++ replyOps replies)).1.pending = [] := by
  obtain ⟨hs1, hs2⟩ := run_sends sends self sock hsock hch
  obtain ⟨hr1, hr2⟩ := run_replies replies (run self (sendOps sends)).1
    (sends.map SendCall.callback) [] (by rw [hs1]; simp [hpend]) (by simpa using hlen) hreply
  rw [run_append]
  refine ⟨?_, ?_⟩
  · simp only [calls_append, hs2, hr2, List.nil_append]
    rw [List.zipWith_map_left]
  · simp only [hr1]

theorem fifo_correlation_witness :
    calls (run authenticated (sendOps exampleSends ++ replyOps exampleReplies)).2 =
        [Effect.call 11 [Value.str "up"], Effect.call 12 [Value.str "ok"]] ∧
      (run authenticated (sendOps exampleSends ++ replyOps exampleReplies)).1.pending = [] :=
  fifo_correlation authenticated 1 exampleSends exampleReplies
    rfl (by decide) rfl rfl (by decide)

/-! ## Challenge replies -/

theorem onMessage_challenge (self : RconGoldSource) (now : Nat) (msg : Buffer)
    (h : isChallengeReply msg = true) :
    self._onMessage now msg =
      ⟨(), { self with challenge := extractChallenge (decodedText msg), authOnce := [] },
        Effect.emit "auth" [Value.bool (extractChallenge (decodedText msg) != none)] ::
          self.authOnce.flatMap authListener⟩ := by
  simp only [isChallengeReply, Bool.and_eq_true, decide_eq_true_eq] at h
  obtain ⟨⟨hlen, hmark⟩, htext⟩ := h
  have hlen2 : ¬ msg.length < 5 := by omega
  unfold RconGoldSource._onMessage
  rw [if_neg hlen2, hmark]
  simp only [ne_eq, not_true_eq_false, if_false]
  have htext2 : indexOf (Buffer.toString (Buffer.slice msg 4)) "challenge rcon" = 0 := htext
  rw [if_pos htext2]
  simp [RconGoldSource.emit, extractChallenge, decodedText]

/-- C3 (as stated, refuted): for the datagram made of the marker and the payload
"challenge rcon 0 12345" it is not the case that the stored challenge is
"12345" and the authentication notification fires with a success flag. -/
theorem example_challenge_is_not_12345 :
    ¬ ((connecting._onMessage 0 exampleChallengeReply).self.challenge = some "12345" ∧
        Effect.emit "auth" [Value.bool true] ∈
          (connecting._onMessage 0 exampleChallengeReply).effects) := by
  decide

/-- C3 (amended): for the datagram made of the marker and the payload
"challenge rcon 0 12345", in every session, the challenge stored by
`_onMessage` is "0", the element at index 2 of the text split on single
spaces, and the authentication notification fires with a success flag, before
the pending one-shot listeners run. -/
theorem example_challenge_is_third_token (self : RconGoldSource) (now : Nat) :
    (self._onMessage now exampleChallengeReply).self.challenge = some "0" ∧
      (self._onMessage now exampleChallengeReply).effects =
        Effect.emit "auth" [Value.bool true] :: self.authOnce.flatMap authListener := by
  have h := onMessage_challenge self now exampleChallengeReply (by decide)
  have e : extractChallenge (decodedText exampleChallengeReply) = some "0" := by decide
  rw [h, e]
  exact ⟨rfl, rfl⟩

/-! ## Datagrams the client transmits -/

/-- C4 (the code at the failing inputs): the challenge request `connect`
transmits from a fresh session is the 8 bytes C3 BF C3 BF C3 BF C3 BF followed
by "challenge rcon" and a newline; its bytes 0-3 are C3 BF C3 BF and read as
the signed little-endian integer -1077690429, not -1. The command datagram
`send` transmits on an authenticated session begins with the same bytes. -/
theorem transmitted_marker_bytes :
    datagrams (freshSession.connect 1 (some 7)).effects =
        [Effect.socketSend 1 (encodedMarker ++ Buffer.from "challenge rcon\n") 0 23 27015
          "10.0.0.1" (Handler.connectSent (some 7))] ∧
      (encodedMarker ++ Buffer.from "challenge rcon\n").take 4 = [0xC3, 0xBF, 0xC3, 0xBF] ∧
      Buffer.readInt32LE (encodedMarker ++ Buffer.from "challenge rcon\n") 0 =
        some (-1077690429) ∧
      datagrams (authenticated.send (Cmd.str "status") none true (some 11)).effects =
        [Effect.socketSend 1 (encodedMarker ++ Buffer.from "rcon 12345 \"pw\" status\n") 0 31
          27015 "10.0.0.1" (Handler.commandSent (some 11))] := by
  decide

/-- C5 (what the code transmits): on a session with an open socket and a
non-empty challenge c, `send` of the command text cmd hands exactly one
datagram to the transport, addressed to (host, port); its bytes are
C3 BF C3 BF C3 BF C3 BF followed by the UTF-8 bytes of
"rcon " ++ c ++ " \"" ++ p ++ "\" " ++ cmd ++ "\n", so it does not consist of
the four marker bytes FF FF FF FF followed by that text. -/
theorem send_datagram_bytes (self : RconGoldSource) (sock : Nat) (c cmd : String)
    (user : Option Nat) (log : Bool) (callback : Option Nat)
    (hsock : self.socket = some sock) (hch : self.challenge = some c) (hne : c ≠ "") :
    (self.send (Cmd.str cmd) user log callback).effects =
        [Effect.socketSend sock
          (encodedMarker ++ Buffer.from
            ("rcon " ++ c ++ " \"" ++ self.server.serverData.rcon_password ++ "\" " ++ cmd ++
              "\n"))
          0
          (8 + (Buffer.from
            ("rcon " ++ c ++ " \"" ++ self.server.serverData.rcon_password ++ "\" " ++ cmd ++
              "\n")).length)
          self.port self.host (Handler.commandSent callback)] ∧
      encodedMarker ++ Buffer.from
          ("rcon " ++ c ++ " \"" ++ self.server.serverData.rcon_password ++ "\" " ++ cmd ++
            "\n") ≠
        oobMarker ++ Buffer.from
          ("rcon " ++ c ++ " \"" ++ self.server.serverData.rcon_password ++ "\" " ++ cmd ++
            "\n") := by
  have ht : truthy self.challenge = true := by simp [hch, truthy, hne]
  have hm : Buffer.from "\xff\xff\xff\xffrcon " = encodedMarker ++ Buffer.from "rcon " := by
    decide
  refine ⟨?_, ?_⟩
  · rw [send_accepted self sock (Cmd.str cmd) user log callback hsock ht]
    simp only [Cmd.toBuffer, toString_from, hch, Option.getD_some, from_append, hm,
      List.append_assoc, List.length_append]
    simp [encodedMarker, Nat.add_assoc]
  · intro h
    have := congrArg List.length h
    simp only [encodedMarker, oobMarker, List.length_append, List.length_cons,
      List.length_nil] at this
    omega

theorem send_datagram_bytes_witness :
    (authenticated.send (Cmd.str "status") none true (some 11)).effects =
        [Effect.socketSend 1
          (encodedMarker ++ Buffer.from
            ("rcon " ++ "12345" ++ " \"" ++ authenticated.server.serverData.rcon_password ++
              "\" " ++ "status" ++ "\n"))
          0
          (8 + (Buffer.from
            ("rcon " ++ "12345" ++ " \"" ++ authenticated.server.serverData.rcon_password ++
              "\" " ++ "status" ++ "\n")).length)
          authenticated.port authenticated.host (Handler.commandSent (some 11))] ∧
      encodedMarker ++ Buffer.from
          ("rcon " ++ "12345" ++ " \"" ++ authenticated.server.serverData.rcon_password ++
            "\" " ++ "status" ++ "\n") ≠
        oobMarker ++ Buffer.from
          ("rcon " ++ "12345" ++ " \"" ++ authenticated.server.serverData.rcon_password ++
            "\" " ++ "status" ++ "\n") :=
  send_datagram_bytes authenticated 1 "12345" "status" none true (some 11) rfl rfl (by decide)

/-! ## `send` on a session that is not connected -/

/-- C6: when the socket is absent or the challenge is absent, `send` with a
callback invokes that callback once with the error "Not connected", then emits
one "error" event with the same error, and does nothing else: no datagram is
handed to the transport and the session (socket, challenge, pending queue,
listeners) is unchanged. -/
theorem send_not_connected (self : RconGoldSource) (cmd : Cmd) (user : Option Nat)
    (log : Bool) (cb : Nat) (h : self.socket = none ∨ self.challenge = none) :
    (self.send cmd user log (some cb)).self = self ∧
      (self.send cmd user log (some cb)).effects =
        [Effect.call cb [Value.error ⟨"Not connected"⟩],
          Effect.emit "error" [Value.error ⟨"Not connected"⟩]] := by
  have hn : notConnected self (some cb) =
      ⟨(), self, [Effect.call cb [Value.error ⟨"Not connected"⟩],
        Effect.emit "error" [Value.error ⟨"Not connected"⟩]]⟩ := by
    simp [notConnected, emit_of_ne_auth _ "error" _ (by decide)]
  unfold RconGoldSource.send
  cases hs : self.socket with
  | none => simp [hn]
  | some sock =>
    have hc : self.challenge = none := by
      rcases h with h | h
      · rw [hs] at h
        cases h
      · exact h
    simp [hc, truthy, hn]

theorem send_not_connected_witness :
    (connecting.socket = none ∨ connecting.challenge = none) ∧
      (connecting.send (Cmd.str "status") none true (some 11)).self = connecting ∧
      (connecting.send (Cmd.str "status") none true (some 11)).effects =
        [Effect.call 11 [Value.error ⟨"Not connected"⟩],
          Effect.emit "error" [Value.error ⟨"Not connected"⟩]] :=
  ⟨Or.inr rfl, send_not_connected connecting (Cmd.str "status") none true 11 (Or.inr rfl)⟩

/-! ## `disconnect` and the challenge -/

/-- C7 (as stated, refuted): on the session with an open socket and challenge
"12345", it is not the case that `disconnect` returning true leaves the
challenge absent. -/
theorem disconnect_does_not_clear_challenge :
    ¬ (authenticated.disconnect.ret = true →
        authenticated.disconnect.self.challenge = none) := by
  decide

/-- C7 (amended): for every state in which `disconnect` is called with an open
socket, it returns true, the socket is absent afterwards, and the challenge is
exactly what it was before: `disconnect` does not clear it. -/
theorem disconnect_keeps_challenge (self : RconGoldSource) (sock : Nat)
    (h : self.socket = some sock) :
    self.disconnect.ret = true ∧ self.disconnect.self.socket = none ∧
      self.disconnect.self.challenge = self.challenge := by
  simp [RconGoldSource.disconnect, h, emit_of_ne_auth _ "disconnect" _ (by decide)]

theorem disconnect_keeps_challenge_witness :
    authenticated.socket = some 1 ∧ authenticated.disconnect.ret = true ∧
      authenticated.disconnect.self.socket = none ∧
      authenticated.disconnect.self.challenge = some "12345" :=
  ⟨rfl, disconnect_keeps_challenge authenticated 1 rfl⟩

/-! ## The "connect" event -/

/-- C8 (the code at the failing input): after `connect` with completion
callback 7 on a fresh session, the challenge reply made of the marker and the
payload "challenge rcon" leaves the challenge absent and fires the
authentication notification with the flag false, and the one-shot listener
then invokes callback 7 with `null` (no error) and emits "connect". -/
theorem failed_handshake_reports_connect :
    (freshSession.connect 1 (some 7)).self = connecting ∧
      (connecting._onMessage 0 (oobMarker ++ Buffer.from "challenge rcon")).self.challenge =
        none ∧
      (connecting._onMessage 0 (oobMarker ++ Buffer.from "challenge rcon")).effects =
        [Effect.emit "auth" [Value.bool false], Effect.call 7 [Value.null],
          Effect.emit "connect" []] := by
  decide

/-- C9: a challenge reply whose text has no element at index 2 when split on
single spaces (such as "challenge rcon") fires the authentication notification
with the flag false, and the challenge is absent afterwards, whatever the
session was before. -/
theorem challenge_reply_without_token (self : RconGoldSource) (now : Nat) (msg : Buffer)
    (h : isChallengeReply msg = true) (htok : (splitSpace (decodedText msg))[2]? = none) :
    (self._onMessage now msg).self.challenge = none ∧
      (self._onMessage now msg).effects =
        Effect.emit "auth" [Value.bool false] :: self.authOnce.flatMap authListener := by
  have e : extractChallenge (decodedText msg) = none := by
    simp [extractChallenge, htok, truthy]
  rw [onMessage_challenge self now msg h, e]
  exact ⟨rfl, rfl⟩

theorem challenge_reply_without_token_witness :
    connecting.challenge = none ∧
      isChallengeReply (oobMarker ++ Buffer.from "challenge rcon") = true ∧
      (connecting._onMessage 3 (oobMarker ++ Buffer.from "challenge rcon")).self.challenge =
        none ∧
      (connecting._onMessage 3 (oobMarker ++ Buffer.from "challenge rcon")).effects =
        Effect.emit "auth" [Value.bool false] :: connecting.authOnce.flatMap authListener :=
  ⟨rfl, by decide,
    challenge_reply_without_token connecting 3 (oobMarker ++ Buffer.from "challenge rcon")
      (by decide) (by decide)⟩

/-! ## `connect` called twice -/

/-- C10: on a session with no socket, `connect` returns true, stores the newly
created socket and hands exactly one datagram to the transport, the challenge
request built on line 43, addressed to (host, port); a second `connect` right
after it returns false, does nothing (no datagram, no listener registration,
no other effect) and leaves the session exactly as the first call left it. -/
theorem connect_twice (self : RconGoldSource) (sock₁ sock₂ : Nat) (cb₁ cb₂ : Option Nat)
    (h : self.socket = none) :
    (self.connect sock₁ cb₁).ret = true ∧
      (self.connect sock₁ cb₁).self.socket = some sock₁ ∧
      datagrams (self.connect sock₁ cb₁).effects =
        [Effect.socketSend sock₁ (Buffer.from "\xff\xff\xff\xffchallenge rcon\n") 0
          (Buffer.from "\xff\xff\xff\xffchallenge rcon\n").length self.port self.host
          (Handler.connectSent cb₁)] ∧
      ((self.connect sock₁ cb₁).self.connect sock₂ cb₂).ret = false ∧
      ((self.connect sock₁ cb₁).self.connect sock₂ cb₂).effects = [] ∧
      ((self.connect sock₁ cb₁).self.connect sock₂ cb₂).self = (self.connect sock₁ cb₁).self := by
  simp [RconGoldSource.connect, h, datagrams]

theorem connect_twice_witness :
    freshSession.socket = none ∧
      (freshSession.connect 1 (some 7)).ret = true ∧
      (freshSession.connect 1 (some 7)).self.socket = some 1 ∧
      datagrams (freshSession.connect 1 (some 7)).effects =
        [Effect.socketSend 1 (Buffer.from "\xff\xff\xff\xffchallenge rcon\n") 0
          (Buffer.from "\xff\xff\xff\xffchallenge rcon\n").length freshSession.port
          freshSession.host
          (Handler.connectSent (some 7))] ∧
      ((freshSession.connect 1 (some 7)).self.connect 2 (some 8)).ret = false ∧
      ((freshSession.connect 1 (some 7)).self.connect 2 (some 8)).effects = [] ∧
      ((freshSession.connect 1 (some 7)).self.connect 2 (some 8)).self =
        (freshSession.connect 1 (some 7)).self :=
  ⟨rfl, connect_twice freshSession 1 2 (some 7) (some 8) rfl⟩

/-! ## `disconnect` with and without an open socket -/

/-- C11: `disconnect` on a session with no socket returns false, does nothing
(so no "disconnect" event) and leaves the session as it was; on a session with
an open socket it returns true, emits exactly one "disconnect" event, leaves
the socket absent, and a `connect` called next returns true. -/
theorem disconnect_guard (self : RconGoldSource) :
    (self.socket = none →
        self.disconnect.ret = false ∧ self.disconnect.effects = [] ∧
          self.disconnect.self = self) ∧
      (∀ sock, self.socket = some sock →
        self.disconnect.ret = true ∧
          emitsOf "disconnect" self.disconnect.effects = [Effect.emit "disconnect" []] ∧
          emits self.disconnect.effects = [Effect.emit "disconnect" []] ∧
          self.disconnect.self.socket = none ∧
          ∀ fresh callback, (self.disconnect.self.connect fresh callback).ret = true) := by
  refine ⟨?_, ?_⟩
  · intro h
    simp [RconGoldSource.disconnect, h]
  · intro sock h
    simp [RconGoldSource.disconnect, h, emit_of_ne_auth _ "disconnect" _ (by decide),
      emitsOf, emits, RconGoldSource.connect]

theorem disconnect_guard_witness :
    (freshSession.disconnect.ret = false ∧ freshSession.disconnect.effects = [] ∧
        freshSession.disconnect.self = freshSession) ∧
      (authenticated.disconnect.ret = true ∧
        emitsOf "disconnect" authenticated.disconnect.effects = [Effect.emit "disconnect" []] ∧
        emits authenticated.disconnect.effects = [Effect.emit "disconnect" []] ∧
        authenticated.disconnect.self.socket = none ∧
        ∀ fresh callback, (authenticated.disconnect.self.connect fresh callback).ret = true) :=
  ⟨(disconnect_guard freshSession).1 rfl, (disconnect_guard authenticated).2 1 rfl⟩

/-! ## Command replies -/

/-- C12: for every datagram of at least 5 bytes with a valid marker whose
decoded text does not begin with "challenge rcon", `_onMessage` emits exactly
one event, a "message" event, whether or not the pending queue is empty; its
argument is the record with size = datagram length - 4, id = 0, type = 0,
body = the decoded text, user absent, the capture time and log = true. The
pending queue loses exactly its head when it is non-empty (and stays empty
otherwise); socket and challenge are unchanged. -/
theorem command_reply_effect (self : RconGoldSource) (now : Nat) (msg : Buffer)
    (h : isCommandReply msg = true) :
    emits (self._onMessage now msg).effects =
        [Effect.emit "message" [Value.response
          { size := msg.length - 4, id := 0, type := 0, body := decodedText msg, user := none,
            timestamp := now, log := true }]] ∧
      (self._onMessage now msg).self.pending = self.pending.tail ∧
      (self._onMessage now msg).self.socket = self.socket ∧
      (self._onMessage now msg).self.challenge = self.challenge := by
  rw [onMessage_reply self now msg h]
  refine ⟨?_, rfl, rfl, rfl⟩
  cases self.pending <;> simp [emits]

theorem command_reply_effect_witness :
    isCommandReply exampleReply = true ∧
      emits ({ authenticated with pending := [11, 12] }._onMessage 9 exampleReply).effects =
        [Effect.emit "message" [Value.response
          { size := 2, id := 0, type := 0, body := "up", user := none,
            timestamp := 9, log := true }]] ∧
      ({ authenticated with pending := [11, 12] }._onMessage 9 exampleReply).self.pending =
        [12] ∧
      ({ authenticated with pending := [11, 12] }._onMessage 9 exampleReply).self.socket =
        some 1 ∧
      ({ authenticated with pending := [11, 12] }._onMessage 9 exampleReply).self.challenge =
        some "12345" :=
  ⟨by decide,
    command_reply_effect { authenticated with pending := [11, 12] } 9 exampleReply (by decide)⟩

/-! ## Transport errors -/

/-- C14: when the socket reports an error while the session's socket is open,
whether or not a challenge is stored, the listener of lines 36-39 invokes the
completion callback of `connect` (if one was supplied) with that error, then
closes the socket; the socket is absent afterwards and exactly one event is
emitted, a "disconnect" event. -/
theorem socket_error_forces_disconnect (self : RconGoldSource) (sock : Nat)
    (callback : Option Nat) (err : JsError) (h : self.socket = some sock) :
    calls (onSocketError self callback err).effects =
        (match callback with
         | some cb => [Effect.call cb [Value.error err]]
         | none => []) ∧
      emits (onSocketError self callback err).effects = [Effect.emit "disconnect" []] ∧
      (onSocketError self callback err).effects.getLast? = some (Effect.emit "disconnect" []) ∧
      Effect.socketClose sock ∈ (onSocketError self callback err).effects ∧
      (onSocketError self callback err).self.socket = none := by
  cases callback <;>
    simp [onSocketError, RconGoldSource.disconnect, h,
      emit_of_ne_auth _ "disconnect" _ (by decide), calls, emits]

theorem socket_error_forces_disconnect_witness :
    authenticated.socket = some 1 ∧
      calls (onSocketError authenticated (some 7) exampleError).effects =
        [Effect.call 7 [Value.error exampleError]] ∧
      emits (onSocketError authenticated (some 7) exampleError).effects =
        [Effect.emit "disconnect" []] ∧
      (onSocketError authenticated (some 7) exampleError).effects.getLast? =
        some (Effect.emit "disconnect" []) ∧
      Effect.socketClose 1 ∈ (onSocketError authenticated (some 7) exampleError).effects ∧
      (onSocketError authenticated (some 7) exampleError).self.socket = none :=
  ⟨rfl, socket_error_forces_disconnect authenticated 1 (some 7) exampleError rfl⟩

/-- C17: an accepted `send` registers the completion function of lines 107-109
with its datagram; when the transport reports a failure to it, the reply
callback (if one was supplied) is invoked with that error and nothing else
happens: no socket call, no event, and the session (socket, challenge, pending
queue) is exactly as before. -/
theorem send_failure_reported (self : RconGoldSource) (sock : Nat) (cmd : Cmd)
    (user : Option Nat) (log : Bool) (callback : Option Nat) (err : JsError)
    (hsock : self.socket = some sock) (hch : truthy self.challenge = true) :
    (∃ buf, (self.send cmd user log callback).effects =
        [Effect.socketSend sock buf 0 buf.length self.port self.host
          (Handler.commandSent callback)]) ∧
      ∀ later : RconGoldSource,
        (onCommandSent later callback (some err)).self = later ∧
          (onCommandSent later callback (some err)).effects =
            (match callback with
             | some cb => [Effect.call cb [Value.error err]]
             | none => []) := by
  refine ⟨⟨_, by rw [send_accepted self sock cmd user log callback hsock hch]⟩, ?_⟩
  intro later
  cases callback <;> simp [onCommandSent]

theorem send_failure_reported_witness :
    (∃ buf, (authenticated.send (Cmd.str "status") none true (some 11)).effects =
        [Effect.socketSend 1 buf 0 buf.length authenticated.port authenticated.host
          (Handler.commandSent (some 11))]) ∧
      ∀ later : RconGoldSource,
        (onCommandSent later (some 11) (some exampleError)).self = later ∧
          (onCommandSent later (some 11) (some exampleError)).effects =
            [Effect.call 11 [Value.error exampleError]] :=
  send_failure_reported authenticated 1 (Cmd.str "status") none true (some 11) exampleError
    rfl (by decide)

/-! ## A stale challenge after reconnecting -/

/-- C15: there is a sequence in which the session appears falsely
authenticated. After `connect`, a challenge reply that stores the non-empty
token tok, `disconnect` and a second `connect` (no new challenge reply yet),
the socket is the new one, the stored challenge is still tok, and `send` is
accepted: its only effect is the transmission of one command datagram built
from tok, with no "Not connected" error. -/
theorem stale_challenge_accepted (host : String) (port : Nat) (server : RconServer)
    (sock₁ sock₂ : Nat) (cb₁ cb₂ : Option Nat) (now : Nat) (msg : Buffer) (tok : String)
    (cmd : Cmd) (user : Option Nat) (log : Bool) (callback : Option Nat)
    (hmsg : isChallengeReply msg = true)
    (htok : extractChallenge (decodedText msg) = some tok) (hne : tok ≠ "") :
    (run (RconGoldSource.new host port server)
        (reconnectOps sock₁ sock₂ cb₁ cb₂ now msg)).1.socket = some sock₂ ∧
      (run (RconGoldSource.new host port server)
        (reconnectOps sock₁ sock₂ cb₁ cb₂ now msg)).1.challenge = some tok ∧
      ((run (RconGoldSource.new host port server)
        (reconnectOps sock₁ sock₂ cb₁ cb₂ now msg)).1.send cmd user log callback).effects =
        [Effect.socketSend sock₂
          (Buffer.from ("\xff\xff\xff\xffrcon " ++ tok ++ " \"" ++
            server.serverData.rcon_password ++ "\" " ++
            Buffer.toString (Cmd.toBuffer cmd) ++ "\n"))
          0
          (Buffer.from ("\xff\xff\xff\xffrcon " ++ tok ++ " \"" ++
            server.serverData.rcon_password ++ "\" " ++
            Buffer.toString (Cmd.toBuffer cmd) ++ "\n")).length
          port host (Handler.commandSent callback)] := by
  have hs : (run (RconGoldSource.new host port server)
      (reconnectOps sock₁ sock₂ cb₁ cb₂ now msg)).1 =
      { host := host, port := port, server := server, socket := some sock₂,
        challenge := some tok, pending := [], authOnce := [cb₂] } := by
    simp [reconnectOps, run, step, RconGoldSource.new, RconGoldSource.connect,
      onMessage_challenge _ now msg hmsg, htok, RconGoldSource.disconnect,
      emit_of_ne_auth _ "disconnect" _ (by decide)]
  rw [hs]
  refine ⟨rfl, rfl, ?_⟩
  rw [send_accepted _ sock₂ cmd user log callback rfl (by simp [truthy, hne])]
  rfl

theorem stale_challenge_accepted_witness :
    (run (RconGoldSource.new "10.0.0.1" 27015 ⟨⟨"pw"⟩⟩)
        (reconnectOps 1 2 (some 7) (some 8) 0 exampleChallenge)).1.socket = some 2 ∧
      (run (RconGoldSource.new "10.0.0.1" 27015 ⟨⟨"pw"⟩⟩)
        (reconnectOps 1 2 (some 7) (some 8) 0 exampleChallenge)).1.challenge = some "12345" ∧
      ((run (RconGoldSource.new "10.0.0.1" 27015 ⟨⟨"pw"⟩⟩)
        (reconnectOps 1 2 (some 7) (some 8) 0 exampleChallenge)).1.send
          (Cmd.str "status") none true (some 11)).effects =
        [Effect.socketSend 2
          (Buffer.from ("\xff\xff\xff\xffrcon " ++ "12345" ++ " \"" ++
            (⟨⟨"pw"⟩⟩ : RconServer).serverData.rcon_password ++ "\" " ++
            Buffer.toString (Cmd.toBuffer (Cmd.str "status")) ++ "\n"))
          0
          (Buffer.from ("\xff\xff\xff\xffrcon " ++ "12345" ++ " \"" ++
            (⟨⟨"pw"⟩⟩ : RconServer).serverData.rcon_password ++ "\" " ++
            Buffer.toString (Cmd.toBuffer (Cmd.str "status")) ++ "\n")).length
          27015 "10.0.0.1" (Handler.commandSent (some 11))] :=
  stale_challenge_accepted "10.0.0.1" 27015 ⟨⟨"pw"⟩⟩ 1 2 (some 7) (some 8) 0 exampleChallenge
    "12345" (Cmd.str "status") none true (some 11) (by decide) (by decide) (by decide)

/-! ## Callbacks invoked more than once -/

/-- C18 (the code at the failing input): on the authenticated session,
`send` with reply callback 11, then the transport reporting a failure of that
send, then one inbound command reply with text "up": callback 11 is invoked
twice, first with the error and then with "up". The failure report leaves it in
the pending queue, from which the reply then takes it. -/
theorem reply_callback_invoked_twice :
    calls (run authenticated
        [Op.send (Cmd.str "status") none true (some 11),
          Op.commandSent (some 11) (some exampleError),
          Op.message 9 exampleReply]).2 =
        [Effect.call 11 [Value.error exampleError], Effect.call 11 [Value.str "up"]] ∧
      (run authenticated
        [Op.send (Cmd.str "status") none true (some 11),
          Op.commandSent (some 11) (some exampleError)]).1.pending = [11] := by
  decide

/-- C19 (the code at the failing input): on the session that is waiting for
its challenge, the challenge reply with text "challenge rcon \n" stores the
empty string as challenge and fires the authentication notification with the
flag true; the socket is still open, yet the `send` that follows is rejected:
it transmits nothing and reports "Not connected" to the callback and as an
"error" event. -/
theorem empty_challenge_reports_success :
    isChallengeReply blankChallenge = true ∧
      (connecting._onMessage 0 blankChallenge).effects.head? =
        some (Effect.emit "auth" [Value.bool true]) ∧
      (connecting._onMessage 0 blankChallenge).self.challenge = some "" ∧
      (connecting._onMessage 0 blankChallenge).self.socket = some 1 ∧
      ((connecting._onMessage 0 blankChallenge).self.send
          (Cmd.str "status") none true (some 11)).effects =
        [Effect.call 11 [Value.error ⟨"Not connected"⟩],
          Effect.emit "error" [Value.error ⟨"Not connected"⟩]] := by
  decide

/-- C20 (the code at the failing input): from a fresh session, `connect` with
callback 7, `disconnect`, `connect` with callback 8 and then one challenge
reply: the reply runs both one-shot listeners, so callback 7 and callback 8
are both invoked with `null` and "connect" is emitted twice. -/
theorem one_reply_two_connect_events :
    (run freshSession [Op.connect 1 (some 7), Op.disconnect, Op.connect 2 (some 8)]).1.authOnce =
        [some 7, some 8] ∧
      (step (run freshSession
          [Op.connect 1 (some 7), Op.disconnect, Op.connect 2 (some 8)]).1
        (Op.message 0 exampleChallenge)).2 =
        [Effect.emit "auth" [Value.bool true], Effect.call 7 [Value.null],
          Effect.emit "connect" [], Effect.call 8 [Value.null], Effect.emit "connect" []] := by
  decide

/-! ## What a challenge reply stores -/

theorem extractChallenge_eq (str : String) : extractChallenge str = thirdTokenTrimmed str := by
  unfold extractChallenge thirdTokenTrimmed
  cases h : (splitSpace str)[2]? with
  | none => simp [truthy]
  | some p =>
    by_cases hp : p = ""
    · simp [truthy, hp]
    · simp [truthy, hp]

theorem emitsOf_authListeners (event : String) (l : List (Option Nat)) (h : event ≠ "connect") :
    emitsOf event (l.flatMap authListener) = [] := by
  induction l with
  | nil => rfl
  | cons c cs ih =>
    have hc : ("connect" == event) = false := by
      simpa using fun e => h e.symm
    simp only [emitsOf] at ih
    cases c <;> simp [List.flatMap_cons, emitsOf, authListener, hc, ih]

theorem isChallengeReply_of (msg : Buffer) (hmark : Buffer.readInt32LE msg 0 = some (-1))
    (htext : indexOf (decodedText msg) "challenge rcon" = 0) : isChallengeReply msg = true := by
  have hlen : 5 ≤ msg.length := by
    by_contra hlt
    have hd : Buffer.slice msg 4 = [] := by
      simp only [Buffer.slice, List.drop_eq_nil_iff]
      omega
    have h1 : indexOf (decodedText msg) "challenge rcon" = -1 := by
      rw [decodedText, hd]
      decide
    rw [h1] at htext
    cases htext
  simp [isChallengeReply, hlen, hmark, htext]

theorem decodedText_marker (s : String) : decodedText (oobMarker ++ Buffer.from s) = s := by
  simp [decodedText, Buffer.slice, oobMarker, toString_from]

theorem readInt32LE_marker (b : Buffer) : Buffer.readInt32LE (oobMarker ++ b) 0 = some (-1) := by
  simp [Buffer.readInt32LE, oobMarker]

theorem splitFrom_no_sep (sep : Char) (cs cur : List Char) (h : ∀ c ∈ cs, c ≠ sep) :
    splitFrom sep cs cur = [⟨cur.reverse ++ cs⟩] := by
  induction cs generalizing cur with
  | nil => simp [splitFrom]
  | cons c cs ih =>
    have hc : c ≠ sep := h c (List.mem_cons_self _ _)
    simp [splitFrom, hc, ih (c :: cur) (fun x hx => h x (List.mem_cons_of_mem _ hx))]

theorem dropWhile_of_head (p : Char → Bool) (l m : List Char) (hl : l ≠ [])
    (h : ∀ c ∈ l, p c = false) : (l ++ m).dropWhile p = l ++ m := by
  cases l with
  | nil => exact absurd rfl hl
  | cons c cs => simp [List.dropWhile, h c (List.mem_cons_self _ _)]

theorem trim_token_line (tok : List Char) (hne : tok ≠ [])
    (hws : ∀ c ∈ tok, isJsWhiteSpace c = false) :
    trim ⟨tok ++ ['\n']⟩ = ⟨tok⟩ := by
  have h1 : (tok ++ ['\n']).dropWhile isJsWhiteSpace = tok ++ ['\n'] :=
    dropWhile_of_head isJsWhiteSpace tok ['\n'] hne hws
  have hnl : isJsWhiteSpace '\n' = true := by decide
  have h2 : (tok ++ ['\n']).reverse.dropWhile isJsWhiteSpace = tok.reverse := by
    have h3 := dropWhile_of_head isJsWhiteSpace tok.reverse [] (by simpa using hne)
      (fun c hc => hws c (List.mem_reverse.mp hc))
    simp only [List.append_nil] at h3
    simp [List.reverse_append, List.dropWhile, hnl, h3]
  simp only [trim, h1, h2, List.reverse_reverse]

theorem token_line (tok : String) (hne : tok ≠ "")
    (hws : ∀ c ∈ tok.data, isJsWhiteSpace c = false) :
    indexOf ("challenge rcon " ++ tok ++ "\n") "challenge rcon" = 0 ∧
      extractChallenge ("challenge rcon " ++ tok ++ "\n") = some tok := by
  have hd : ("challenge rcon " ++ tok ++ "\n").data =
      'c' :: 'h' :: 'a' :: 'l' :: 'l' :: 'e' :: 'n' :: 'g' :: 'e' :: ' ' ::
        'r' :: 'c' :: 'o' :: 'n' :: ' ' :: (tok.data ++ ['\n']) := by
    simp [String.data_append]
  have hdata : tok.data ≠ [] := by
    intro h
    apply hne
    cases tok
    simp_all
  have hsp : ∀ c ∈ tok.data ++ ['\n'], c ≠ ' ' := by
    intro c hc h
    subst h
    rcases List.mem_append.mp hc with h1 | h1
    · have := hws _ h1
      revert this
      decide
    · revert h1
      decide
  have hsplit : splitSpace ("challenge rcon " ++ tok ++ "\n") =
      ["challenge", "rcon", ⟨tok.data ++ ['\n']⟩] := by
    have hq := splitFrom_no_sep ' ' (tok.data ++ ['\n']) [] hsp
    simp only [List.reverse_nil, List.nil_append] at hq
    simp only [splitSpace, hd]
    simp [splitFrom, hq]
  refine ⟨?_, ?_⟩
  · simp only [indexOf, hd]
    simp [indexOfFrom, List.isPrefixOf]
  · have ht : truthy (some (⟨tok.data ++ ['\n']⟩ : String)) = true := by
      simp [truthy]
      intro h
      have := congrArg String.data h
      simp at this
    simp only [extractChallenge, hsplit]
    simp only [List.getElem?_cons_succ, List.getElem?_cons_zero, ht, if_true, Option.map_some']
    rw [trim_token_line tok.data hdata hws]

/-- C16: for every datagram with a valid marker whose decoded text begins with
"challenge rcon", the challenge stored afterwards is the element at index 2 of
the text split on single spaces, trimmed of leading and trailing white space,
or absent when that element is missing or empty; exactly one "auth" event is
emitted, and its flag is true exactly when the stored challenge is not absent;
the pending queue is unchanged and no "message" event is emitted. In
particular, for the payload "challenge rcon " ++ tok ++ "\n" with tok non-empty
and free of white space the stored challenge is tok. -/
theorem challenge_reply_effect :
    (∀ (self : RconGoldSource) (now : Nat) (msg : Buffer),
        Buffer.readInt32LE msg 0 = some (-1) →
        indexOf (decodedText msg) "challenge rcon" = 0 →
        (self._onMessage now msg).self.challenge = thirdTokenTrimmed (decodedText msg) ∧
          emitsOf "auth" (self._onMessage now msg).effects =
            [Effect.emit "auth" [Value.bool (self._onMessage now msg).self.challenge.isSome]] ∧
          (self._onMessage now msg).self.pending = self.pending ∧
          emitsOf "message" (self._onMessage now msg).effects = []) ∧
      (∀ (self : RconGoldSource) (now : Nat) (tok : String),
        tok ≠ "" → (∀ c ∈ tok.data, isJsWhiteSpace c = false) →
        (self._onMessage now
          (oobMarker ++ Buffer.from ("challenge rcon " ++ tok ++ "\n"))).self.challenge =
          some tok) := by
  refine ⟨?_, ?_⟩
  · intro self now msg hmark htext
    rw [onMessage_challenge self now msg (isChallengeReply_of msg hmark htext)]
    refine ⟨extractChallenge_eq _, ?_, rfl, ?_⟩
    · have hl := emitsOf_authListeners "auth" self.authOnce (by decide)
      simp only [emitsOf] at hl
      cases extractChallenge (decodedText msg) <;> simp [emitsOf, hl]
    · have hl := emitsOf_authListeners "message" self.authOnce (by decide)
      simp only [emitsOf] at hl
      simp [emitsOf, hl]
  · intro self now tok hne hws
    obtain ⟨h1, h2⟩ := token_line tok hne hws
    have hm : isChallengeReply (oobMarker ++ Buffer.from ("challenge rcon " ++ tok ++ "\n")) =
        true :=
      isChallengeReply_of _ (readInt32LE_marker _) (by rw [decodedText_marker]; exact h1)
    rw [onMessage_challenge self now _ hm, decodedText_marker, h2]

theorem challenge_reply_effect_witness :
    ((connecting._onMessage 0 exampleChallenge).self.challenge =
          thirdTokenTrimmed (decodedText exampleChallenge) ∧
        emitsOf "auth" (connecting._onMessage 0 exampleChallenge).effects =
          [Effect.emit "auth"
            [Value.bool (connecting._onMessage 0 exampleChallenge).self.challenge.isSome]] ∧
        (connecting._onMessage 0 exampleChallenge).self.pending = connecting.pending ∧
        emitsOf "message" (connecting._onMessage 0 exampleChallenge).effects = []) ∧
      (connecting._onMessage 0
        (oobMarker ++ Buffer.from ("challenge rcon " ++ "12345" ++ "\n"))).self.challenge =
        some "12345" :=
  ⟨challenge_reply_effect.1 connecting 0 exampleChallenge (by decide) (by decide),
    challenge_reply_effect.2 connecting 0 "12345" (by decide) (by decide)⟩

/-! ## Callbacks left in the queue by `disconnect` -/

theorem onMessage_dropped (self : RconGoldSource) (now : Nat) (msg : Buffer)
    (h : msg.length < 5 ∨ Buffer.readInt32LE msg 0 ≠ some (-1)) :
    (self._onMessage now msg).self = self ∧ (self._onMessage now msg).effects = [] := by
  unfold RconGoldSource._onMessage
  by_cases hlen : msg.length < 5
  · simp [hlen]
  · obtain ⟨v, hv⟩ := readInt32LE_of_length msg hlen
    have hne : v ≠ -1 := by
      rcases h with h | h
      · exact absurd h hlen
      · intro hv1
        exact h (by rw [hv, hv1])
    simp [hlen, hv, hne]

theorem message_cases (msg : Buffer) :
    (msg.length < 5 ∨ Buffer.readInt32LE msg 0 ≠ some (-1)) ∨
      isChallengeReply msg = true ∨ isCommandReply msg = true := by
  by_cases h1 : msg.length < 5
  · exact Or.inl (Or.inl h1)
  · by_cases h2 : Buffer.readInt32LE msg 0 = some (-1)
    · by_cases h3 : indexOf (decodedText msg) "challenge rcon" = 0
      · exact Or.inr (Or.inl (by simp [isChallengeReply, h2, h3]; omega))
      · exact Or.inr (Or.inr (by simp [isCommandReply, h2, h3]; omega))
    · exact Or.inl (Or.inr h2)

theorem call_mem_authListeners (cb : Nat) (args : List Value) (l : List (Option Nat))
    (h : Effect.call cb args ∈ l.flatMap authListener) : some cb ∈ l := by
  induction l with
  | nil => simp at h
  | cons c cs ih =>
    rw [List.flatMap_cons, List.mem_append] at h
    rcases h with h | h
    · cases c with
      | none => simp [authListener] at h
      | some x =>
        simp [authListener] at h
        simp [h.1]
    · exact List.mem_cons_of_mem _ (ih h)

theorem step_quiet (self : RconGoldSource) (cb : Nat) (op : Op)
    (hauth : some cb ∉ self.authOnce) (hc : Op.carries cb op = false)
    (hr : Op.isReply op = false) :
    some cb ∉ (step self op).1.authOnce ∧
      (∀ args, Effect.call cb args ∉ (step self op).2) ∧
      (∀ x ∈ self.pending, x ∈ (step self op).1.pending) := by
  have hd : ∀ s : RconGoldSource, s.disconnect.self.authOnce = s.authOnce ∧
      s.disconnect.self.pending = s.pending ∧
      ∀ args, Effect.call cb args ∉ s.disconnect.effects := by
    intro s
    cases hs : s.socket <;>
      simp [RconGoldSource.disconnect, hs, emit_of_ne_auth _ "disconnect" _ (by decide)]
  cases op with
  | connect fresh callback =>
    have hne : callback ≠ some cb := by simpa [Op.carries] using hc
    cases hs : self.socket <;>
      simp [step, RconGoldSource.connect, hs, hauth, Ne.symm hne]
  | disconnect =>
    obtain ⟨h1, h2, h3⟩ := hd self
    simp only [step]
    exact ⟨by rw [h1]; exact hauth, h3, fun x hx => by rw [h2]; exact hx⟩
  | send cmd user log callback =>
    have hne : callback ≠ some cb := by simpa [Op.carries] using hc
    have hn : (notConnected self callback).self = self ∧
        ∀ args, Effect.call cb args ∉ (notConnected self callback).effects := by
      cases callback with
      | none => simp [notConnected, emit_of_ne_auth _ "error" _ (by decide)]
      | some x =>
        have hx : cb ≠ x := fun e => hne (by rw [e])
        simp [notConnected, emit_of_ne_auth _ "error" _ (by decide), hx]
    simp only [step, RconGoldSource.send]
    cases hs : self.socket with
    | none =>
      simp only [hn.1]
      exact ⟨hauth, hn.2, fun x hx => hx⟩
    | some sock =>
      by_cases ht : truthy self.challenge = true
      · cases callback <;> simp [ht, hauth]
        intro x hx
        exact Or.inl hx
      · simp only [ht, Bool.not_false, if_true, hn.1]
        exact ⟨hauth, hn.2, fun x hx => hx⟩
  | message now msg =>
    have hnr : ¬ isCommandReply msg = true := by simpa [Op.isReply] using hr
    simp only [step]
    rcases message_cases msg with h | h | h
    · obtain ⟨h1, h2⟩ := onMessage_dropped self now msg h
      rw [h1, h2]
      exact ⟨hauth, by simp, fun x hx => hx⟩
    · rw [onMessage_challenge self now msg h]
      refine ⟨by simp, ?_, fun x hx => hx⟩
      intro args hmem
      rcases List.mem_cons.mp hmem with e | e
      · cases e
      · exact hauth (call_mem_authListeners cb args _ e)
    · exact absurd h hnr
  | socketError callback err =>
    have hne : callback ≠ some cb := by simpa [Op.carries] using hc
    obtain ⟨h1, h2, h3⟩ := hd self
    simp only [step, onSocketError]
    refine ⟨by rw [h1]; exact hauth, ?_, fun x hx => by rw [h2]; exact hx⟩
    intro args hmem
    rcases List.mem_append.mp hmem with e | e
    · cases callback with
      | none => simp at e
      | some x =>
        simp at e
        exact hne (by rw [e.1])
    · exact h3 args e
  | connectSent callback err =>
    have hne : callback ≠ some cb := by simpa [Op.carries] using hc
    obtain ⟨h1, h2, h3⟩ := hd self
    cases err with
    | none => simp [step, onConnectSent, hauth]
    | some e0 =>
      simp only [step, onConnectSent]
      refine ⟨by rw [h1]; exact hauth, ?_, fun x hx => by rw [h2]; exact hx⟩
      intro args hmem
      rcases List.mem_append.mp hmem with e | e
      · cases callback with
        | none => simp at e
        | some x =>
          simp at e
          exact hne (by rw [e.1])
      · exact h3 args e
  | commandSent callback err =>
    have hne : callback ≠ some cb := by simpa [Op.carries] using hc
    cases err with
    | none => simp [step, onCommandSent, hauth]
    | some e0 =>
      cases callback with
      | none => simp [step, onCommandSent, hauth]
      | some x =>
        have hx : cb ≠ x := fun e => hne (by rw [e])
        simp [step, onCommandSent, hauth, hx]

theorem run_quiet (ops : List Op) (self : RconGoldSource) (cb : Nat)
    (hauth : some cb ∉ self.authOnce)
    (hops : ∀ op ∈ ops, Op.carries cb op = false ∧ Op.isReply op = false) :
    (∀ args, Effect.call cb args ∉ (run self ops).2) ∧
      (∀ x ∈ self.pending, x ∈ (run self ops).1.pending) := by
  induction ops generalizing self with
  | nil => simp [run]
  | cons op ops ih =>
    obtain ⟨hc, hr⟩ := hops op (List.mem_cons_self _ _)
    obtain ⟨h1, h2, h3⟩ := step_quiet self cb op hauth hc hr
    obtain ⟨i1, i2⟩ := ih (step self op).1 h1 (fun o ho => hops o (List.mem_cons_of_mem _ ho))
    simp only [run]
    refine ⟨?_, fun x hx => i2 x (h3 x hx)⟩
    intro args hmem
    rcases List.mem_append.mp hmem with e | e
    · exact h2 args e
    · exact i1 args e

/-- C13 (as stated, refuted): `send` with reply callback 11 leaves it in the
pending queue; the session then disconnects (`disconnect` returns true); after
a later `connect`, handshake, a new command with reply callback 12 and one
command reply with text "up", callback 11 has been invoked, with "up", and it
is the only callback invoked. -/
theorem abandoned_callback_invoked_later :
    (authenticated.send (Cmd.str "status") none true (some 11)).self = queued ∧
      11 ∈ queued.pending ∧ queued.disconnect.ret = true ∧
      calls (run queued.disconnect.self exampleLaterOps).2 =
        [Effect.call 11 [Value.str "up"]] := by
  decide

/-- C13 (amended): a reply callback that is in the pending queue when
`disconnect` is called, and that is not the completion callback of a `connect`
still waiting for its authentication notification, is neither invoked nor
removed by `disconnect`; and after every subsequent sequence of operations
that contains no command reply and does not hand that callback over again (no
call passes it, no handler closing over it is run), it has not been invoked
and is still in the pending queue. -/
theorem abandoned_callback_stays_queued (self : RconGoldSource) (cb : Nat) (ops : List Op)
    (hq : cb ∈ self.pending) (hauth : some cb ∉ self.authOnce)
    (hops : ∀ op ∈ ops, Op.carries cb op = false ∧ Op.isReply op = false) :
    calls self.disconnect.effects = [] ∧
      self.disconnect.self.pending = self.pending ∧
      (∀ args, Effect.call cb args ∉ (run self.disconnect.self ops).2) ∧
      cb ∈ (run self.disconnect.self ops).1.pending := by
  have hd : calls self.disconnect.effects = [] ∧
      self.disconnect.self.pending = self.pending ∧
      self.disconnect.self.authOnce = self.authOnce := by
    cases hs : self.socket <;>
      simp [RconGoldSource.disconnect, hs, emit_of_ne_auth _ "disconnect" _ (by decide), calls]
  obtain ⟨h1, h2, h3⟩ := hd
  obtain ⟨r1, r2⟩ := run_quiet ops self.disconnect.self cb (by rw [h3]; exact hauth) hops
  exact ⟨h1, h2, r1, r2 cb (by rw [h2]; exact hq)⟩

theorem abandoned_callback_stays_queued_witness :
    (11 ∈ queued.pending ∧ some 11 ∉ queued.authOnce) ∧
      calls queued.disconnect.effects = [] ∧
      queued.disconnect.self.pending = queued.pending ∧
      (∀ args, Effect.call 11 args ∉ (run queued.disconnect.self exampleQuietOps).2) ∧
      11 ∈ (run queued.disconnect.self exampleQuietOps).1.pending :=
  ⟨by decide,
    abandoned_callback_stays_queued queued 11 exampleQuietOps (by decide) (by decide)
      (by decide)⟩

end RconGs
